import Mathlib

/-!
Verification development for the chunked ZIP upload coordinator
(Node.js/Express backend: `uploadController.js`, `fileUtils.js`,
`recoveryService.js`, `cleanupService.js`).

The metadata store (MySQL tables `uploads` and `chunks`) is embedded as a
`Session` record (one per upload row, with its chunk rows and its blob file
inlined); byte streams are `List Nat`; the streaming SHA-256 of the crypto
library and the yauzl ZIP check are external collaborators and appear as
function parameters `hash` and `isZip`.  Timestamps other than `created_at`
(which the abandonment sweeps read) are not modelled.
-/

namespace ChunkedUpload

/-- Status enum of the `uploads` table: ENUM of UPLOADING, PROCESSING, COMPLETED, FAILED. -/
inductive UploadStatus
  | UPLOADING
  | PROCESSING
  | COMPLETED
  | FAILED
deriving DecidableEq, Repr

/-- Status enum of the `chunks` table: ENUM of PENDING, SUCCESS. -/
inductive ChunkStatus
  | PENDING
  | SUCCESS
deriving DecidableEq, Repr

/-- One upload session: the `uploads` row together with its `chunks` rows
(`chunks`, position `i` being the row with `chunk_index = i`) and the blob
file at its `file_path` (`blob`; `none` means the file is absent from disk). -/
structure Session where
  filename : String
  totalSize : Nat
  totalChunks : Nat
  status : UploadStatus
  finalHash : Option (List Nat)
  createdAt : Nat
  chunks : List ChunkStatus
  blob : Option (List Nat)
deriving DecidableEq, Repr

/-- Effective CHUNK_SIZE: `parseInt(process.env.CHUNK_SIZE) || 5242880`
(uploadController.js line 9).  An unset or zero (falsy) setting yields the
5 MiB default. -/
def effChunkSize (cfg : Option Nat) : Nat :=
  match cfg with
  | none => 5242880
  | some n => if n = 0 then 5242880 else n

/-- Contents written by a positional write: bytes before `offset` are kept,
a hole up to `offset` (if the file is shorter) reads back as zeros, the
payload follows, and the original bytes from `offset + payload.length` on
are kept.  This is POSIX pwrite semantics, which is what a Node write
stream opened with flags r+ and a start option performs. -/
def overwriteAt (contents : List Nat) (offset : Nat) (payload : List Nat) : List Nat :=
  contents.take offset ++ List.replicate (offset - contents.length) 0
    ++ payload ++ contents.drop (offset + payload.length)

/-- Embedding of `writeChunkAtOffset(filePath, offset, dataStream)`
(fileUtils.js lines 23 to 54): opens the file with flags r+ (which fails
with ENOENT when the file does not exist), writes the full payload at
`offset`, and resolves with the number of bytes written (the sum of the
data event lengths, i.e. the payload length). -/
def writeChunkAtOffset (file : Option (List Nat)) (offset : Nat)
    (payload : List Nat) : Except String (List Nat × Nat) :=
  match file with
  | none => .error "ENOENT"
  | some contents => .ok (overwriteAt contents offset payload, payload.length)

/-- Embedding of `preallocateFile(filePath, size)` (fileUtils.js lines 13
to 21): open with flag w (truncate to empty) then truncate to `size`,
producing a sparse file of `size` zero bytes. -/
def preallocateFile (size : Nat) : List Nat :=
  List.replicate size 0

/-- Count of SUCCESS chunk rows of a session, as computed by the SQL
aggregate SUM(CASE WHEN status = SUCCESS THEN 1 ELSE 0 END). -/
def countSuccess (cs : List ChunkStatus) : Nat :=
  (cs.filter (· = ChunkStatus.SUCCESS)).length

/-- Indices of SUCCESS chunk rows, as returned by the SELECT chunk_index
query with status = SUCCESS (uploadController.js lines 71 to 76). -/
def successIndices (cs : List ChunkStatus) : List Nat :=
  ((cs.enum).filter (fun p => p.2 = ChunkStatus.SUCCESS)).map (fun p => p.1)

/-- Outcome of a POST /upload/chunk request, mirroring the res.json bodies
built by `uploadChunk` in uploadController.js. -/
inductive ChunkResult
  /-- lines 107 to 111: a required field is missing (400). -/
  | missingFields
  /-- line 127: no uploads row for the given id (404). -/
  | notFound
  /-- lines 132 to 136: session status is not UPLOADING (rejected). -/
  | conflict (st : UploadStatus)
  /-- lines 138 to 142: chunk index outside the valid range (400). -/
  | badIndex
  /-- lines 147 to 151: response with duplicate set to true (200). -/
  | duplicate (idx : Nat)
  /-- lines 183 to 191: chunk accepted, with progress counters (200). -/
  | accepted (idx completed total : Nat) (isComplete : Bool)
  /-- lines 201 to 204: a thrown error was caught and surfaced (500). -/
  | serverError (msg : String)
deriving DecidableEq, Repr

/-- HTTP status code attached to each outcome by the res.status calls of
`uploadChunk`.  Note that the status-not-UPLOADING rejection at line 133
uses res.status(400). -/
def httpStatusOf : ChunkResult → Nat
  | .missingFields => 400
  | .notFound => 404
  | .conflict _ => 400
  | .badIndex => 400
  | .duplicate _ => 200
  | .accepted _ _ _ _ => 200
  | .serverError _ => 500

/-- Value of the duplicate flag in the JSON response (absent flags read as
false on the client). -/
def isDuplicate : ChunkResult → Bool
  | .duplicate _ => true
  | _ => false

/-- Embedding of `uploadChunk(req, res)` (uploadController.js lines 102 to
209) exactly as the source stands.  Arguments: the uploads row found for
the posted uploadId (`none` when the SELECT at line 121 returns no row),
the parsed chunkIndex, and the multipart chunk payload (each `none` when
the field is missing, line 107).  After the status and index checks, line
145 reads the identifier `chunks`, which is bound nowhere in the file (no
query for the chunk row exists in the source); evaluating it raises a
ReferenceError, which the catch block at line 193 turns into the 500
response of lines 201 to 204.  The session row and the blob are untouched
on that path. -/
def uploadChunk (s : Option Session) (idx : Option Int)
    (payload : Option (List Nat)) : ChunkResult × Option Session :=
  match idx, payload with
  | none, _ => (.missingFields, s)
  | _, none => (.missingFields, s)
  | some i, some _ =>
    match s with
    | none => (.notFound, none)
    | some u =>
      if u.status ≠ .UPLOADING then
        (.conflict u.status, some u)
      else if i < 0 ∨ (u.totalChunks : Int) ≤ i then
        (.badIndex, some u)
      else
        (.serverError "chunks is not defined", some u)

/-- Finalize triggering of uploadController.js lines 177 to 181: the
setTimeout at line 178 is guarded by `if (isComplete)`, but the duplicated
setTimeout at line 180 stands outside that guard (the brace at line 181 is
the stray remainder of the duplication), so a finalize task is enqueued
after every chunk regardless of completeness. -/
def finalizeTriggered (isComplete : Bool) : Bool :=
  isComplete || true

/-- Chunk ingestion as `uploadChunk` evidently intends it, used to study
the pipeline behind the unreachable code: identical to `uploadChunk` up to
the index check, after which two bindings that the source reads but never
establishes are supplied.  Modelled from the spec: the source is missing
(a) the chunk-row lookup whose result line 145 reads as `chunks` (spec
section 4.5 step 1: if the chunk row is already SUCCESS, return duplicate
without touching the blob), and (b) the payload stream that line 156
passes to writeChunkAtOffset as `chunkStream` (spec section 4.5 step 2:
stream the payload into write_at at offset index times CHUNK_SIZE).  The
rest follows the source: write at the offset (line 154 to 156), mark the
chunk row SUCCESS (line 160 to 164), read the COUNT and SUM aggregates
(line 166 to 173), enqueue finalize triggers per lines 177 to 181, and
answer with the progress body (line 183 to 191).  The returned Bool is
whether a finalize trigger was enqueued. -/
def uploadChunkModelled (cs : Nat) (s : Option Session) (idx : Option Int)
    (payload : Option (List Nat)) : ChunkResult × Option Session × Bool :=
  match idx, payload with
  | none, _ => (.missingFields, s, false)
  | _, none => (.missingFields, s, false)
  | some i, some p =>
    match s with
    | none => (.notFound, none, false)
    | some u =>
      if u.status ≠ .UPLOADING then
        (.conflict u.status, some u, false)
      else if i < 0 ∨ (u.totalChunks : Int) ≤ i then
        (.badIndex, some u, false)
      else
        match u.chunks[i.toNat]? with
        | some .SUCCESS => (.duplicate i.toNat, some u, false)
        | _ =>
          match u.blob with
          | none => (.serverError "ENOENT", some u, false)
          | some b =>
            let u1 : Session :=
              { u with blob := some (overwriteAt b (i.toNat * cs) p),
                       chunks := u.chunks.set i.toNat .SUCCESS }
            let total := u1.chunks.length
            let completed := countSuccess u1.chunks
            let isComplete := completed = total
            (.accepted i.toNat completed total isComplete, some u1,
              finalizeTriggered isComplete)

/-- Phase 1 of `finalizeUpload(uploadId)` (uploadController.js lines 216
to 247): inside a transaction, SELECT the row FOR UPDATE; if the status is
not UPLOADING, roll back and return without any mutation (the
double-finalize defense, line 234 to 238); otherwise set the status to
PROCESSING and commit (line 241 to 247).  Returns the session together
with whether this caller claimed the finalization. -/
def finalizeAcquire (u : Session) : Session × Bool :=
  if u.status = .UPLOADING then
    ({ u with status := .PROCESSING }, true)
  else
    (u, false)

/-- Phase 2 of `finalizeUpload` (uploadController.js lines 251 to 283),
run outside any transaction by the caller that claimed phase 1: stat the
blob (a missing file throws, landing in the catch block that marks
FAILED), compare its size with total_size (mismatch throws, FAILED),
compute the streaming SHA-256, check ZIP validity (invalid throws,
FAILED), and on success set status COMPLETED with final_hash (line 266 to
270). -/
def finalizeChecks (hash : List Nat → List Nat) (isZip : List Nat → Bool)
    (u : Session) : Session :=
  match u.blob with
  | none => { u with status := .FAILED }
  | some b =>
    if b.length ≠ u.totalSize then
      { u with status := .FAILED }
    else
      let finalHash := hash b
      if isZip b then
        { u with status := .COMPLETED, finalHash := some finalHash }
      else
        { u with status := .FAILED }

/-- Whole `finalizeUpload` invocation: phase 1 under the row lock, then
phase 2 only for the claiming caller.  The not-found branch at line 226
(no uploads row) is a rollback-and-return and is not represented, since
every theorem below invokes finalize on an existing session. -/
def finalizeUpload (hash : List Nat → List Nat) (isZip : List Nat → Bool)
    (u : Session) : Session :=
  let p := finalizeAcquire u
  if p.2 then finalizeChecks hash isZip p.1 else p.1

/-- Embedding of `recoverSingleUpload(upload)` (recoveryService.js lines
46 to 120), invoked by Sweep A on each PROCESSING session: if the blob
file is absent mark FAILED; else if fewer than all chunk rows are SUCCESS
reset to UPLOADING; else resume finalization (size check, SHA-256, ZIP
check) exactly as in finalizeUpload phase 2. -/
def recoverSingleUpload (hash : List Nat → List Nat)
    (isZip : List Nat → Bool) (u : Session) : Session :=
  match u.blob with
  | none => { u with status := .FAILED }
  | some b =>
    if countSuccess u.chunks < u.chunks.length then
      { u with status := .UPLOADING }
    else if b.length ≠ u.totalSize then
      { u with status := .FAILED }
    else
      let finalHash := hash b
      if isZip b then
        { u with status := .COMPLETED, finalHash := some finalHash }
      else
        { u with status := .FAILED }

/-- Embedding of `recoverInterruptedUploads` (recoveryService.js lines 15
to 44), Sweep A: every session whose status is PROCESSING is passed to
recoverSingleUpload; all other rows are untouched by the WHERE clause. -/
def recoverInterruptedUploads (hash : List Nat → List Nat)
    (isZip : List Nat → Bool) (ss : List Session) : List Session :=
  ss.map (fun u =>
    if u.status = .PROCESSING then recoverSingleUpload hash isZip u else u)

/-- Action of the abandonment sweeps on one session: the SQL of both
recoverAbandonedUploads (recoveryService.js lines 129 to 134) and
cleanupAbandonedUploads (cleanupService.js lines 15 to 20) selects rows
with status UPLOADING and created_at strictly before the cutoff instant
(NOW minus the timeout interval); each selected row has its blob deleted
(safeDeleteFile, idempotent) and its status set to FAILED. -/
def reapSession (cutoff : Nat) (u : Session) : Session :=
  if u.status = .UPLOADING ∧ u.createdAt < cutoff then
    { u with status := .FAILED, blob := none }
  else
    u

/-- Embedding of `recoverAbandonedUploads` (recoveryService.js lines 125
to 158), Sweep B, parameterized by the absolute cutoff instant that the
DATE_SUB expression evaluates to. -/
def recoverAbandonedUploads (cutoff : Nat) (ss : List Session) : List Session :=
  ss.map (reapSession cutoff)

/-- Embedding of `performStartupRecovery` (recoveryService.js lines 163
to 174): Sweep A over PROCESSING sessions followed by Sweep B over
abandoned UPLOADING sessions. -/
def performStartupRecovery (hash : List Nat → List Nat)
    (isZip : List Nat → Bool) (cutoff : Nat) (ss : List Session) : List Session :=
  recoverAbandonedUploads cutoff (recoverInterruptedUploads hash isZip ss)

/-- Effective ABANDONED_TIMEOUT of cleanupService.js line 5:
`parseInt(process.env.ABANDONED_UPLOAD_TIMEOUT) || 86400000`.  An unset
variable parses to NaN and a zero value is falsy; both fall back to the
24-hour default. -/
def cleanupTimeoutMs (cfg : Option Nat) : Nat :=
  match cfg with
  | none => 86400000
  | some t => if t = 0 then 86400000 else t

/-- Timeout in whole hours as computed at cleanupService.js line 12:
`Math.floor(ABANDONED_TIMEOUT / 3600000)`, which for naturals is Nat
division. -/
def cleanupTimeoutHours (cfg : Option Nat) : Nat :=
  cleanupTimeoutMs cfg / 3600000

/-- Embedding of `cleanupAbandonedUploads` (cleanupService.js lines 7 to
49): sessions with status UPLOADING created strictly before NOW minus the
whole-hour timeout have their blob deleted and their status set to FAILED.
Time is in milliseconds; `now` is the instant of the NOW() call, and the
DATE_SUB cutoff is `now - hours * 3600000` (truncated at zero, matching a
date before the representable range selecting nothing older). -/
def cleanupAbandonedUploads (cfg : Option Nat) (now : Nat)
    (ss : List Session) : List Session :=
  ss.map (reapSession (now - cleanupTimeoutHours cfg * 3600000))

/-- Embedding of the ZIP-name test at uploadController.js line 29:
`filename.toLowerCase().endsWith('.zip')`, expressed on the character list
of the name (the last four characters of the lowercased name must be the
.zip suffix; shorter names fail the test). -/
def isZipName (filename : String) : Bool :=
  let low := filename.data.map Char.toLower
  decide (low.drop (low.length - 4) = ['.', 'z', 'i', 'p'])

/-- Outcome of POST /upload/init, mirroring the res.json bodies of
`initializeUpload` in uploadController.js. -/
inductive InitResult
  /-- lines 16 to 33: missing or invalid fields, or not a ZIP name (400). -/
  | badRequest (msg : String)
  /-- lines 86 to 94: an error was caught, the transaction rolled back (500). -/
  | serverError (msg : String)
  /-- lines 80 to 84: the fresh id and the SUCCESS chunk indices (200). -/
  | ok (uploadId : String) (uploadedChunks : List Nat)
deriving DecidableEq, Repr

/-- Embedding of `initializeUpload(req, res)` (uploadController.js lines
11 to 100).  The store is an association list from upload id to session;
`newId` is the uuidv4 generated at line 38.  Checks in source order: the
falsy-field test of line 16 (empty filename, zero sizes), the sign test of
line 22 (body sizes are JSON numbers, hence Int here), the ZIP-name test
of line 29.  Then the blob is preallocated to totalSize bytes, the uploads
row (status UPLOADING) and totalChunks PENDING chunk rows are inserted in
one transaction, and after the commit the SUCCESS chunk indices of the new
id are queried and returned.  A duplicate primary key makes the INSERT
throw and the handler roll back and answer 500; the preallocated file left
behind on that path is outside the store and not tracked. -/
def initializeUpload (st : List (String × Session)) (newId : String)
    (filename : String) (totalSize totalChunks : Int) (now : Nat) :
    InitResult × List (String × Session) :=
  if filename = "" ∨ totalSize = 0 ∨ totalChunks = 0 then
    (.badRequest "Missing required fields: filename, totalSize, totalChunks", st)
  else if totalSize ≤ 0 ∨ totalChunks ≤ 0 then
    (.badRequest "Invalid totalSize or totalChunks", st)
  else if ¬ (isZipName filename) then
    (.badRequest "Only ZIP files are supported", st)
  else if (st.lookup newId).isSome then
    (.serverError "Upload initialization failed", st)
  else
    let session : Session :=
      { filename := filename
        totalSize := totalSize.toNat
        totalChunks := totalChunks.toNat
        status := .UPLOADING
        finalHash := none
        createdAt := now
        chunks := List.replicate totalChunks.toNat .PENDING
        blob := some (preallocateFile totalSize.toNat) }
    (.ok newId (successIndices session.chunks), (newId, session) :: st)

/-- Reachable single-session states of the coordinator.  A session is
created by initializeUpload (status UPLOADING, null final_hash, all chunk
rows PENDING, blob preallocated to total_size zeros) and then evolves by:
chunk ingestion (uploadChunkModelled; the as-written uploadChunk leaves
the session unchanged on every path and needs no constructor), the two
phases of finalizeUpload at their real commit boundaries (phase 2 runs
only for a claimant, hence only while the durable PROCESSING marker is
set), Sweep A recovery of a PROCESSING session, and the abandonment sweeps
(reapSession with an arbitrary cutoff, covering both recoveryService
Sweep B and cleanupService).  Operations are atomic at the granularity of
their database commits and file operations. -/
inductive Reachable (cs : Nat) (hash : List Nat → List Nat)
    (isZip : List Nat → Bool) : Session → Prop
  | init (filename : String) (ts tc now : Nat) :
      Reachable cs hash isZip
        { filename := filename, totalSize := ts, totalChunks := tc,
          status := .UPLOADING, finalHash := none, createdAt := now,
          chunks := List.replicate tc .PENDING,
          blob := some (preallocateFile ts) }
  | chunk {u : Session} (idx : Option Int) (payload : Option (List Nat))
      (v : Session) :
      Reachable cs hash isZip u →
      (uploadChunkModelled cs (some u) idx payload).2.1 = some v →
      Reachable cs hash isZip v
  | acquire {u : Session} :
      Reachable cs hash isZip u →
      Reachable cs hash isZip (finalizeAcquire u).1
  | checks {u : Session} :
      Reachable cs hash isZip u →
      u.status = .PROCESSING →
      Reachable cs hash isZip (finalizeChecks hash isZip u)
  | recover {u : Session} :
      Reachable cs hash isZip u →
      u.status = .PROCESSING →
      Reachable cs hash isZip (recoverSingleUpload hash isZip u)
  | reap {u : Session} (cutoff : Nat) :
      Reachable cs hash isZip u →
      Reachable cs hash isZip (reapSession cutoff u)

/-- C1: a repeated accept_chunk call whose chunk row is already SUCCESS is
claimed to return duplicate=true without touching blob or session.  The
code instead reads the unbound identifier `chunks` at line 145 (no chunk
row query exists in the file), so the request throws and is answered with
the 500 error body: the state is indeed left unchanged, but the response
is a server error, never duplicate=true. -/
theorem c1_duplicate_retry_code_bug :
    let s : Session :=
      { filename := "a.zip", totalSize := 1, totalChunks := 1,
        status := .UPLOADING, finalHash := none, createdAt := 0,
        chunks := [.SUCCESS], blob := some [7] }
    let r := uploadChunk (some s) (some 0) (some [7])
    r.1 = ChunkResult.serverError "chunks is not defined" ∧
    httpStatusOf r.1 = 500 ∧
    isDuplicate r.1 = false ∧
    r.2 = some s := by
  decide

/-- C8 counterexample: a chunk posted to a PROCESSING session is rejected
without mutation, but the rejection is surfaced with res.status(400)
(uploadController.js line 133), not 409 as the claim states. -/
theorem c8_counterexample :
    let s : Session :=
      { filename := "a.zip", totalSize := 1, totalChunks := 1,
        status := .PROCESSING, finalHash := none, createdAt := 0,
        chunks := [.SUCCESS], blob := some [7] }
    let r := uploadChunk (some s) (some 0) (some [7])
    r.1 = ChunkResult.conflict .PROCESSING ∧
    r.2 = some s ∧
    httpStatusOf r.1 = 400 ∧
    httpStatusOf r.1 ≠ 409 := by
  decide

/-- C8 amended: every chunk-upload request naming a session whose status
is not UPLOADING is rejected as a conflict without mutating the session or
its chunks, and the rejection is surfaced with HTTP status 400. -/
theorem c8_conflict_rejected_400 (u : Session) (i : Int) (p : List Nat)
    (h : u.status ≠ .UPLOADING) :
    uploadChunk (some u) (some i) (some p) = (ChunkResult.conflict u.status, some u) ∧
    httpStatusOf (ChunkResult.conflict u.status) = 400 := by
  unfold uploadChunk
  simp [h, httpStatusOf]

/-- C8 witness: the amended theorem evaluated on a concrete COMPLETED
session. -/
theorem c8_conflict_rejected_400_witness :
    uploadChunk
        (some { filename := "a.zip", totalSize := 1, totalChunks := 1,
                status := .COMPLETED, finalHash := some [7], createdAt := 0,
                chunks := [.SUCCESS], blob := some [7] })
        (some 0) (some [9])
      = (ChunkResult.conflict .COMPLETED,
         some { filename := "a.zip", totalSize := 1, totalChunks := 1,
                status := .COMPLETED, finalHash := some [7], createdAt := 0,
                chunks := [.SUCCESS], blob := some [7] }) ∧
    httpStatusOf (ChunkResult.conflict .COMPLETED) = 400 :=
  c8_conflict_rejected_400
    { filename := "a.zip", totalSize := 1, totalChunks := 1,
      status := .COMPLETED, finalHash := some [7], createdAt := 0,
      chunks := [.SUCCESS], blob := some [7] } 0 [9] (by decide)

/-- C10 counterexample: with the timeout configured to 0 milliseconds the
claim predicts a 0-hour cutoff reaping every UPLOADING session, but 0 is
falsy so the code falls back to the 24-hour default: a one-hour-old
UPLOADING session survives the sweep untouched. -/
theorem c10_counterexample :
    let s : Session :=
      { filename := "a.zip", totalSize := 1, totalChunks := 1,
        status := .UPLOADING, finalHash := none, createdAt := 356400000,
        chunks := [.PENDING], blob := some [0] }
    cleanupTimeoutHours (some 0) = 24 ∧
    (0 : Nat) / 3600000 = 0 ∧
    cleanupAbandonedUploads (some 0) 360000000 [s] = [s] ∧
    s.status = .UPLOADING := by
  decide

/-- C10 amended: for every positive configured abandonment timeout t in
milliseconds the cleanup sweep reaps UPLOADING sessions older than
floor(t / 3600000) hours, and for every positive t strictly below one hour
the cutoff is 0 hours, so every UPLOADING session created strictly before
the sweep instant is reaped (blob deleted, status FAILED) regardless of
age.  A timeout of 0 is falsy and falls back to the 24-hour default. -/
theorem c10_cleanup_cutoff (t : Nat) (ht : 0 < t) :
    cleanupTimeoutHours (some t) = t / 3600000 ∧
    (t < 3600000 → ∀ (now : Nat) (ss : List Session),
      cleanupAbandonedUploads (some t) now ss
        = ss.map (fun u =>
            if u.status = .UPLOADING ∧ u.createdAt < now then
              { u with status := .FAILED, blob := none }
            else u)) := by
  have hne : t ≠ 0 := Nat.pos_iff_ne_zero.mp ht
  constructor
  · simp [cleanupTimeoutHours, cleanupTimeoutMs, hne]
  · intro hlt now ss
    have hdiv : t / 3600000 = 0 := Nat.div_eq_of_lt hlt
    simp [cleanupAbandonedUploads, cleanupTimeoutHours, cleanupTimeoutMs,
      hne, hdiv, reapSession]

/-- C10 witness: the amended theorem evaluated at t = 1 millisecond on a
session created before the sweep instant. -/
theorem c10_cleanup_cutoff_witness :
    cleanupAbandonedUploads (some 1) 5
        [{ filename := "a.zip", totalSize := 1, totalChunks := 1,
           status := .UPLOADING, finalHash := none, createdAt := 0,
           chunks := [.PENDING], blob := some [0] }]
      = [{ filename := "a.zip", totalSize := 1, totalChunks := 1,
           status := .FAILED, finalHash := none, createdAt := 0,
           chunks := [.PENDING], blob := none }] := by
  have h := (c10_cleanup_cutoff 1 (by decide)).2 (by decide) 5
    [{ filename := "a.zip", totalSize := 1, totalChunks := 1,
       status := .UPLOADING, finalHash := none, createdAt := 0,
       chunks := [.PENDING], blob := some [0] }]
  rw [h]
  decide

/-- C7 counterexample: write_at is claimed never to change the file size,
but a positional write past the current end extends the file: writing one
byte at offset 0 of an existing empty file yields a one-byte file. -/
theorem c7_counterexample :
    writeChunkAtOffset (some []) 0 [1] = Except.ok ([1], 1) ∧
    ([1] : List Nat).length = 1 ∧
    ([] : List Nat).length = 0 ∧
    ([1] : List Nat).length ≠ ([] : List Nat).length :=
  ⟨rfl, rfl, rfl, by decide⟩

/-- C7 amended: write_at on an existing file writes the full payload at
the given offset, returns the payload length as the bytes written, never
truncates (the new length is the maximum of the old length and
offset + payload length, and every byte outside the written range keeps
its value), and leaves the size unchanged whenever the written range lies
within the current size; a write past the current end, however, extends
the file. -/
theorem c7_write_at_contract (fc : List Nat) (off : Nat) (p : List Nat) :
    writeChunkAtOffset (some fc) off p = Except.ok (overwriteAt fc off p, p.length) ∧
    (overwriteAt fc off p).length = max fc.length (off + p.length) ∧
    (∀ i, i < off → i < fc.length → (overwriteAt fc off p)[i]? = fc[i]?) ∧
    (∀ j, j < p.length → (overwriteAt fc off p)[off + j]? = p[j]?) ∧
    (∀ i, off + p.length ≤ i → (overwriteAt fc off p)[i]? = fc[i]?) ∧
    (off + p.length ≤ fc.length → (overwriteAt fc off p).length = fc.length) := by
  have hlen : (overwriteAt fc off p).length = max fc.length (off + p.length) := by
    simp only [overwriteAt, List.length_append, List.length_take,
      List.length_replicate, List.length_drop]
    omega
  refine ⟨rfl, hlen, ?_, ?_, ?_, ?_⟩
  · intro i hio hic
    unfold overwriteAt
    rw [List.getElem?_append_left (by
      simp only [List.length_append, List.length_take, List.length_replicate]
      omega)]
    rw [List.getElem?_append_left (by
      simp only [List.length_append, List.length_take, List.length_replicate]
      omega)]
    rw [List.getElem?_append_left (by
      simp only [List.length_take]
      omega)]
    exact List.getElem?_take_of_lt hio
  · intro j hj
    unfold overwriteAt
    rw [List.getElem?_append_left (by
      simp only [List.length_append, List.length_take, List.length_replicate]
      omega)]
    rw [List.getElem?_append_right (by
      simp only [List.length_append, List.length_take, List.length_replicate]
      omega)]
    have he : off + j - (fc.take off ++ List.replicate (off - fc.length) 0).length = j := by
      simp only [List.length_append, List.length_take, List.length_replicate]
      omega
    rw [he]
  · intro i hi
    unfold overwriteAt
    rw [List.getElem?_append_right (by
      simp only [List.length_append, List.length_take, List.length_replicate]
      omega)]
    rw [List.getElem?_drop]
    congr 1
    simp only [List.length_append, List.length_take, List.length_replicate]
    omega
  · intro hle
    rw [hlen]
    omega

/-- C7 witness: the contract evaluated on the file [1, 2, 3] with one byte
written at offset 1. -/
theorem c7_write_at_contract_witness :
    writeChunkAtOffset (some [1, 2, 3]) 1 [9] = Except.ok ([1, 9, 3], 1) ∧
    (overwriteAt [1, 2, 3] 1 [9])[0]? = some 1 ∧
    (overwriteAt [1, 2, 3] 1 [9])[1 + 0]? = [9][0]? ∧
    (overwriteAt [1, 2, 3] 1 [9])[2]? = some 3 ∧
    (overwriteAt [1, 2, 3] 1 [9]).length = 3 := by
  have h := c7_write_at_contract [1, 2, 3] 1 [9]
  refine ⟨?_, ?_, h.2.2.2.1 0 (by decide), ?_, h.2.2.2.2.2 (by decide)⟩
  · have h1 := h.1
    have he : overwriteAt [1, 2, 3] 1 [9] = [1, 9, 3] := by decide
    rw [he] at h1
    simpa using h1
  · have h2 := h.2.2.1 0 (by decide) (by decide)
    simpa using h2
  · have h4 := h.2.2.2.2.1 2 (by decide)
    simpa using h4

/-- C2: the claim says the Finalizer is triggered from chunk ingestion
only when the SUCCESS count equals the total and that UPLOADING to
PROCESSING never happens with fewer than total_chunks SUCCESS rows.  In
the code the duplicated setTimeout at line 180 of uploadController.js
stands outside the isComplete guard, so ingesting chunk 0 of a fresh
2-chunk session (1 of 2 SUCCESS) still enqueues finalizeUpload, and
finalizeUpload checks only the status under the lock, committing the
PROCESSING transition with 1 < 2 SUCCESS rows. -/
theorem c2_premature_finalize_code_bug :
    let u : Session :=
      { filename := "a.zip", totalSize := 2, totalChunks := 2,
        status := .UPLOADING, finalHash := none, createdAt := 0,
        chunks := [.PENDING, .PENDING], blob := some [0, 0] }
    let u1 : Session :=
      { filename := "a.zip", totalSize := 2, totalChunks := 2,
        status := .UPLOADING, finalHash := none, createdAt := 0,
        chunks := [.SUCCESS, .PENDING], blob := some [7, 0] }
    uploadChunkModelled 1 (some u) (some 0) (some [7])
      = (ChunkResult.accepted 0 1 2 false, some u1, true) ∧
    countSuccess u1.chunks = 1 ∧
    u1.totalChunks = 2 ∧
    finalizeAcquire u1 = ({ u1 with status := .PROCESSING }, true) ∧
    countSuccess ({ u1 with status := .PROCESSING } : Session).chunks
      < ({ u1 with status := .PROCESSING } : Session).totalChunks := by
  decide

/-- C6 counterexample: no payload-length validation exists on the
ingestion path.  With the default CHUNK_SIZE, the single (final) chunk of
a 1-byte session is accepted with a 2-byte payload (the claim demands its
length equal total_size minus (total_chunks - 1) times CHUNK_SIZE, here
1); with CHUNK_SIZE configured to 1, a 2-byte payload strictly longer
than CHUNK_SIZE is accepted at index 0 and overwrites the next chunk
region instead of being rejected. -/
theorem c6_counterexample :
    let ua : Session :=
      { filename := "a.zip", totalSize := 1, totalChunks := 1,
        status := .UPLOADING, finalHash := none, createdAt := 0,
        chunks := [.PENDING], blob := some [0] }
    let ra := uploadChunkModelled (effChunkSize none) (some ua) (some 0) (some [1, 2])
    let ub : Session :=
      { filename := "a.zip", totalSize := 2, totalChunks := 2,
        status := .UPLOADING, finalHash := none, createdAt := 0,
        chunks := [.PENDING, .PENDING], blob := some [0, 0] }
    let rb := uploadChunkModelled (effChunkSize (some 1)) (some ub) (some 0) (some [5, 6])
    httpStatusOf ra.1 = 200 ∧
    ra.1 = ChunkResult.accepted 0 1 1 true ∧
    ra.2.1 = some { ua with chunks := [.SUCCESS], blob := some [1, 2] } ∧
    ([1, 2] : List Nat).length ≠ ua.totalSize - (ua.totalChunks - 1) * effChunkSize none ∧
    httpStatusOf rb.1 = 200 ∧
    rb.2.1 = some { ub with chunks := [.SUCCESS, .PENDING], blob := some [5, 6] } ∧
    effChunkSize (some 1) < ([5, 6] : List Nat).length := by
  decide

/-- C6 amended: the ingestion path performs no payload-length validation
at all.  Whenever the session is UPLOADING, the index is in range, the
chunk row is not yet SUCCESS and the blob file exists, a payload of any
length whatsoever is accepted with HTTP 200 (duplicate false), written at
offset index times CHUNK_SIZE, and the chunk row is marked SUCCESS; no
hypothesis on the payload length is needed. -/
theorem c6_no_length_validation (cs : Nat) (u : Session) (i : Int) (p b : List Nat)
    (hst : u.status = .UPLOADING) (h0 : 0 ≤ i) (hi : i < (u.totalChunks : Int))
    (hrow : u.chunks[i.toNat]? ≠ some ChunkStatus.SUCCESS) (hb : u.blob = some b) :
    httpStatusOf (uploadChunkModelled cs (some u) (some i) (some p)).1 = 200 ∧
    isDuplicate (uploadChunkModelled cs (some u) (some i) (some p)).1 = false ∧
    (uploadChunkModelled cs (some u) (some i) (some p)).2.1
      = some { u with
          blob := some (overwriteAt b (i.toNat * cs) p),
          chunks := u.chunks.set i.toNat .SUCCESS } := by
  have hif : ¬ (i < 0 ∨ (u.totalChunks : Int) ≤ i) := by omega
  rcases hc : u.chunks[i.toNat]? with _ | st
  · simp [uploadChunkModelled, hst, hif, hc, hb, httpStatusOf, isDuplicate]
  · cases st with
    | SUCCESS => exact (hrow hc).elim
    | PENDING => simp [uploadChunkModelled, hst, hif, hc, hb, httpStatusOf, isDuplicate]

/-- C6 witness: the amended theorem evaluated on a fresh 2-chunk session
with CHUNK_SIZE 1 and an oversized 2-byte payload at index 0. -/
theorem c6_no_length_validation_witness :
    let ub : Session :=
      { filename := "a.zip", totalSize := 2, totalChunks := 2,
        status := .UPLOADING, finalHash := none, createdAt := 0,
        chunks := [.PENDING, .PENDING], blob := some [0, 0] }
    httpStatusOf (uploadChunkModelled 1 (some ub) (some 0) (some [5, 6])).1 = 200 ∧
    isDuplicate (uploadChunkModelled 1 (some ub) (some 0) (some [5, 6])).1 = false ∧
    (uploadChunkModelled 1 (some ub) (some 0) (some [5, 6])).2.1
      = some { ub with
          blob := some (overwriteAt [0, 0] ((0 : Int).toNat * 1) [5, 6]),
          chunks := ([.PENDING, .PENDING] : List ChunkStatus).set (0 : Int).toNat .SUCCESS } := by
  exact c6_no_length_validation 1
    { filename := "a.zip", totalSize := 2, totalChunks := 2,
      status := .UPLOADING, finalHash := none, createdAt := 0,
      chunks := [.PENDING, .PENDING], blob := some [0, 0] }
    0 [5, 6] [0, 0] rfl (by decide) (by decide) (by decide) rfl

/-- Helper: phase 2 of finalization always lands in a terminal status. -/
theorem finalizeChecks_status (hash : List Nat → List Nat) (isZip : List Nat → Bool)
    (u : Session) :
    (finalizeChecks hash isZip u).status = .COMPLETED ∨
    (finalizeChecks hash isZip u).status = .FAILED := by
  unfold finalizeChecks
  cases hb : u.blob with
  | none => simp
  | some b =>
    dsimp only
    split_ifs <;> simp

/-- Helper: a finalize invocation that observes a status other than
UPLOADING under the row lock neither claims nor mutates anything. -/
theorem finalizeUpload_noop (hash : List Nat → List Nat) (isZip : List Nat → Bool)
    (u : Session) (h : u.status ≠ .UPLOADING) :
    finalizeUpload hash isZip u = u ∧ (finalizeAcquire u).2 = false := by
  unfold finalizeUpload finalizeAcquire
  simp [h]

/-- C3: invoking finalize twice on a session, including from two
concurrent tasks serialized only by the row lock, performs the terminal
transition exactly once.  For an UPLOADING session the first invocation
ends COMPLETED or FAILED, a second full invocation afterwards is the
identity and does not claim, and a second lock acquisition interleaved
between the first acquisition and its checks observes PROCESSING and
neither claims nor mutates; an invocation that observes any status other
than UPLOADING returns without mutating the session. -/
theorem c3_double_finalize (hash : List Nat → List Nat) (isZip : List Nat → Bool)
    (u : Session) :
    (u.status = .UPLOADING →
      ((finalizeUpload hash isZip u).status = .COMPLETED ∨
        (finalizeUpload hash isZip u).status = .FAILED) ∧
      finalizeUpload hash isZip (finalizeUpload hash isZip u)
        = finalizeUpload hash isZip u ∧
      (finalizeAcquire (finalizeUpload hash isZip u)).2 = false ∧
      (finalizeAcquire (finalizeAcquire u).1).1 = (finalizeAcquire u).1 ∧
      (finalizeAcquire (finalizeAcquire u).1).2 = false) ∧
    (u.status ≠ .UPLOADING →
      finalizeUpload hash isZip u = u ∧ (finalizeAcquire u).2 = false) := by
  constructor
  · intro h
    have hterm : (finalizeUpload hash isZip u).status = .COMPLETED ∨
        (finalizeUpload hash isZip u).status = .FAILED := by
      unfold finalizeUpload
      simp only [finalizeAcquire, if_pos h, ite_true]
      exact finalizeChecks_status hash isZip _
    have hne : (finalizeUpload hash isZip u).status ≠ .UPLOADING := by
      rcases hterm with h1 | h1 <;> simp [h1]
    refine ⟨hterm, (finalizeUpload_noop hash isZip _ hne).1, ?_, ?_, ?_⟩
    · unfold finalizeAcquire
      simp [hne]
    · simp [finalizeAcquire, h]
    · simp [finalizeAcquire, h]
  · intro h
    exact finalizeUpload_noop hash isZip u h

/-- C3 witness: a concrete 1-chunk UPLOADING session is driven to a
terminal status by the first finalize invocation, and a second invocation
is a no-op. -/
theorem c3_double_finalize_witness :
    let u0 : Session :=
      { filename := "a.zip", totalSize := 1, totalChunks := 1,
        status := .UPLOADING, finalHash := none, createdAt := 0,
        chunks := [.SUCCESS], blob := some [7] }
    ((finalizeUpload (fun b => b) (fun _ => true) u0).status = .COMPLETED ∨
      (finalizeUpload (fun b => b) (fun _ => true) u0).status = .FAILED) ∧
    finalizeUpload (fun b => b) (fun _ => true)
        (finalizeUpload (fun b => b) (fun _ => true) u0)
      = finalizeUpload (fun b => b) (fun _ => true) u0 ∧
    (finalizeAcquire (finalizeAcquire u0).1).2 = false := by
  intro u0
  have h := (c3_double_finalize (fun b => b) (fun _ => true) u0).1 rfl
  exact ⟨h.1, h.2.1, h.2.2.2.2⟩

/-- Helper: a freshly inserted chunk table of PENDING rows has no SUCCESS
index. -/
theorem successIndices_replicate_pending (n : Nat) :
    successIndices (List.replicate n .PENDING) = [] := by
  unfold successIndices
  have h : ((List.replicate n ChunkStatus.PENDING).enum).filter
      (fun q => decide (q.2 = ChunkStatus.SUCCESS)) = [] := by
    apply List.filter_eq_nil_iff.mpr
    intro q hq
    have h2 := List.snd_mem_of_mem_enum hq
    have h3 := List.eq_of_mem_replicate h2
    simp [h3]
  rw [h]
  rfl

/-- C9: every successful initializeUpload returns an empty uploadedChunks
list: the SUCCESS-chunk query runs on the freshly generated id right after
its chunk rows were all inserted as PENDING, so re-initialization never
reports prior progress. -/
theorem c9_init_uploaded_empty (st : List (String × Session)) (newId filename : String)
    (totalSize totalChunks : Int) (now : Nat) (uid : String) (chs : List Nat)
    (h : (initializeUpload st newId filename totalSize totalChunks now).1
      = InitResult.ok uid chs) :
    chs = [] := by
  unfold initializeUpload at h
  split_ifs at h
  all_goals simp at h
  rw [← h.2, successIndices_replicate_pending]

/-- C9 witness: a concrete successful initialization, whose response
carries the fresh id and an empty uploadedChunks list. -/
theorem c9_init_uploaded_empty_witness :
    (initializeUpload [] "a" "a.zip" 1 1 0).1
      = InitResult.ok "a" (successIndices (List.replicate 1 ChunkStatus.PENDING)) ∧
    successIndices (List.replicate 1 ChunkStatus.PENDING) = [] := by
  constructor
  · decide
  · exact c9_init_uploaded_empty [] "a" "a.zip" 1 1 0 "a"
      (successIndices (List.replicate 1 ChunkStatus.PENDING)) (by decide)

/-- Helper: the abandonment reap either leaves the status alone or makes
it FAILED; it never produces PROCESSING from elsewhere. -/
theorem reapSession_status (cutoff : Nat) (v : Session) :
    (reapSession cutoff v).status = v.status ∨
    (reapSession cutoff v).status = .FAILED := by
  unfold reapSession
  split_ifs <;> simp

/-- Helper: the abandonment reap is idempotent on one session. -/
theorem reapSession_idem (cutoff : Nat) (v : Session) :
    reapSession cutoff (reapSession cutoff v) = reapSession cutoff v := by
  unfold reapSession
  split_ifs <;> simp_all

/-- Helper: Sweep A recovery of one session never leaves it PROCESSING. -/
theorem recoverSingleUpload_status (hash : List Nat → List Nat)
    (isZip : List Nat → Bool) (u : Session) :
    (recoverSingleUpload hash isZip u).status ≠ .PROCESSING := by
  unfold recoverSingleUpload
  cases hb : u.blob with
  | none => simp
  | some b =>
    dsimp only
    split_ifs <;> simp

/-- Helper: second pass of the per-session composite of Sweep A followed
by the abandonment reap is the identity. -/
theorem recoverReapStep_idem (hash : List Nat → List Nat) (isZip : List Nat → Bool)
    (cutoff : Nat) (u : Session) :
    reapSession cutoff
        (if (reapSession cutoff
              (if u.status = .PROCESSING then recoverSingleUpload hash isZip u else u)).status
            = .PROCESSING then
          recoverSingleUpload hash isZip
            (reapSession cutoff
              (if u.status = .PROCESSING then recoverSingleUpload hash isZip u else u))
        else
          reapSession cutoff
            (if u.status = .PROCESSING then recoverSingleUpload hash isZip u else u))
      = reapSession cutoff
          (if u.status = .PROCESSING then recoverSingleUpload hash isZip u else u) := by
  have hstat : (reapSession cutoff
      (if u.status = .PROCESSING then recoverSingleUpload hash isZip u else u)).status
      ≠ .PROCESSING := by
    rcases reapSession_status cutoff
        (if u.status = .PROCESSING then recoverSingleUpload hash isZip u else u) with h | h
    · rw [h]
      by_cases hp : u.status = .PROCESSING
      · rw [if_pos hp]
        exact recoverSingleUpload_status hash isZip u
      · rw [if_neg hp]
        exact hp
    · rw [h]
      simp
  rw [if_neg hstat]
  exact reapSession_idem cutoff _

/-- C4: running the full RecoveryService (Sweep A over PROCESSING
sessions, then Sweep B over abandoned UPLOADING sessions) twice in
succession yields the same metadata-store and blob-store state as running
it once, for every starting state, every hash and ZIP oracle, and every
abandonment cutoff. -/
theorem c4_recovery_idempotent (hash : List Nat → List Nat) (isZip : List Nat → Bool)
    (cutoff : Nat) (ss : List Session) :
    performStartupRecovery hash isZip cutoff (performStartupRecovery hash isZip cutoff ss)
      = performStartupRecovery hash isZip cutoff ss := by
  induction ss with
  | nil => rfl
  | cons u tl ih =>
    unfold performStartupRecovery recoverInterruptedUploads recoverAbandonedUploads at ih ⊢
    simp only [List.map_cons] at ih ⊢
    rw [ih]
    congr 1
    exact recoverReapStep_idem hash isZip cutoff u

/-- Helper: a chunk-ingestion step either leaves the session row untouched
or acts on an UPLOADING session and mutates only its blob and chunk rows,
never its status, final_hash, total_size or created_at. -/
theorem uploadChunkModelled_session (cs : Nat) (u v : Session) (idx : Option Int)
    (payload : Option (List Nat))
    (h : (uploadChunkModelled cs (some u) idx payload).2.1 = some v) :
    v = u ∨
    (u.status = .UPLOADING ∧ v.status = u.status ∧ v.finalHash = u.finalHash ∧
      v.totalSize = u.totalSize ∧ v.createdAt = u.createdAt) := by
  unfold uploadChunkModelled at h
  rcases idx with _ | i
  · exact Or.inl (by simpa using h.symm)
  · rcases payload with _ | p
    · exact Or.inl (by simpa using h.symm)
    · dsimp only at h
      by_cases hst : u.status = .UPLOADING
      · rw [if_neg (by simp [hst])] at h
        by_cases hidx : i < 0 ∨ (u.totalChunks : Int) ≤ i
        · rw [if_pos hidx] at h
          exact Or.inl (by simpa using h.symm)
        · rw [if_neg hidx] at h
          rcases hc : u.chunks[i.toNat]? with _ | st
          · rw [hc] at h
            rcases hb : u.blob with _ | b
            · rw [hb] at h
              exact Or.inl (by simpa using h.symm)
            · rw [hb] at h
              dsimp only at h
              refine Or.inr ⟨hst, ?_⟩
              have hv : v =
                  { u with
                    blob := some (overwriteAt b (i.toNat * cs) p),
                    chunks := u.chunks.set i.toNat .SUCCESS } := by
                simpa using h.symm
              rw [hv]
              exact ⟨rfl, rfl, rfl, rfl⟩
          · cases st with
            | SUCCESS =>
              rw [hc] at h
              exact Or.inl (by simpa using h.symm)
            | PENDING =>
              rw [hc] at h
              rcases hb : u.blob with _ | b
              · rw [hb] at h
                exact Or.inl (by simpa using h.symm)
              · rw [hb] at h
                dsimp only at h
                refine Or.inr ⟨hst, ?_⟩
                have hv : v =
                    { u with
                      blob := some (overwriteAt b (i.toNat * cs) p),
                      chunks := u.chunks.set i.toNat .SUCCESS } := by
                  simpa using h.symm
                rw [hv]
                exact ⟨rfl, rfl, rfl, rfl⟩
      · rw [if_pos (by simp [hst])] at h
        exact Or.inl (by simpa using h.symm)

/-- C5: in every reachable session state, final_hash is non-null only when
the status is COMPLETED, and every COMPLETED session has a blob on disk
whose size equals total_size and whose digest under the hash oracle equals
final_hash.  The reachable states include both the Finalizer success path
(acquire then checks) and the resumed finalization of the RecoveryService
(recover). -/
theorem c5_completed_integrity (cs : Nat) (hash : List Nat → List Nat)
    (isZip : List Nat → Bool) (u : Session) (h : Reachable cs hash isZip u) :
    (u.finalHash ≠ none → u.status = .COMPLETED) ∧
    (u.status = .COMPLETED →
      ∃ b, u.blob = some b ∧ b.length = u.totalSize ∧ u.finalHash = some (hash b)) := by
  induction h with
  | init filename ts tc now => simp
  | chunk idx payload v hu heq ih =>
    rcases uploadChunkModelled_session cs _ v idx payload heq with hv | ⟨hup, hs, hf, hts, _⟩
    · rw [hv]
      exact ih
    · constructor
      · intro hne
        rw [hf] at hne
        have := ih.1 hne
        rw [this] at hup
        exact absurd hup (by simp)
      · intro hcpl
        rw [hs, hup] at hcpl
        exact absurd hcpl (by simp)
  | acquire hu ih =>
    rename_i w
    unfold finalizeAcquire
    by_cases hst : w.status = .UPLOADING
    · rw [if_pos hst]
      constructor
      · intro hne
        have := ih.1 hne
        rw [this] at hst
        exact absurd hst (by simp)
      · intro hcpl
        exact absurd hcpl (by simp)
    · rw [if_neg hst]
      exact ih
  | checks hu hproc ih =>
    rename_i w
    have hfh : w.finalHash = none := by
      by_contra hne
      have := ih.1 hne
      rw [this] at hproc
      exact absurd hproc (by simp)
    unfold finalizeChecks
    cases hb : w.blob with
    | none =>
      constructor
      · intro hne
        exact absurd hfh (by simpa using hne)
      · intro hcpl
        exact absurd hcpl (by simp)
    | some b =>
      dsimp only
      split_ifs with h1 h2
      · constructor
        · intro hne
          exact absurd hfh (by simpa using hne)
        · intro hcpl
          exact absurd hcpl (by simp)
      · constructor
        · intro _
          rfl
        · intro _
          refine ⟨b, by simp, ?_, by simp⟩
          push_neg at h1
          simpa using h1
      · constructor
        · intro hne
          exact absurd hfh (by simpa using hne)
        · intro hcpl
          exact absurd hcpl (by simp)
  | recover hu hproc ih =>
    rename_i w
    have hfh : w.finalHash = none := by
      by_contra hne
      have := ih.1 hne
      rw [this] at hproc
      exact absurd hproc (by simp)
    unfold recoverSingleUpload
    cases hb : w.blob with
    | none =>
      constructor
      · intro hne
        exact absurd hfh (by simpa using hne)
      · intro hcpl
        exact absurd hcpl (by simp)
    | some b =>
      dsimp only
      split_ifs with h0 h1 h2
      · constructor
        · intro hne
          exact absurd hfh (by simpa using hne)
        · intro hcpl
          exact absurd hcpl (by simp)
      · constructor
        · intro hne
          exact absurd hfh (by simpa using hne)
        · intro hcpl
          exact absurd hcpl (by simp)
      · constructor
        · intro _
          rfl
        · intro _
          refine ⟨b, by simp, ?_, by simp⟩
          push_neg at h1
          simpa using h1
      · constructor
        · intro hne
          exact absurd hfh (by simpa using hne)
        · intro hcpl
          exact absurd hcpl (by simp)
  | reap cutoff hu ih =>
    rename_i w
    unfold reapSession
    split_ifs with hcond
    · have hfh : w.finalHash = none := by
        by_contra hne
        have := ih.1 hne
        rw [this] at hcond
        simp at hcond
      constructor
      · intro hne
        exact absurd hfh (by simpa using hne)
      · intro hcpl
        exact absurd hcpl (by simp)
    · exact ih

/-- C5 witness: a concrete end-to-end run (init, ingest the single chunk,
acquire, checks) with the identity hash oracle reaches COMPLETED with a
consistent blob, size and final_hash. -/
theorem c5_completed_integrity_witness :
    let uF : Session :=
      { filename := "a.zip", totalSize := 1, totalChunks := 1,
        status := .COMPLETED, finalHash := some [7], createdAt := 0,
        chunks := [.SUCCESS], blob := some [7] }
    uF.status = .COMPLETED ∧
    (∃ b, uF.blob = some b ∧ b.length = uF.totalSize ∧ uF.finalHash = some b) := by
  intro uF
  have h0 : Reachable 1 (fun b => b) (fun _ => true)
      { filename := "a.zip", totalSize := 1, totalChunks := 1,
        status := .UPLOADING, finalHash := none, createdAt := 0,
        chunks := List.replicate 1 .PENDING, blob := some (preallocateFile 1) } :=
    Reachable.init "a.zip" 1 1 0
  have h1 : Reachable 1 (fun b => b) (fun _ => true)
      { filename := "a.zip", totalSize := 1, totalChunks := 1,
        status := .UPLOADING, finalHash := none, createdAt := 0,
        chunks := [.SUCCESS], blob := some [7] } :=
    Reachable.chunk (some 0) (some [7]) _ h0 (by decide)
  have h2 : Reachable 1 (fun b => b) (fun _ => true)
      { filename := "a.zip", totalSize := 1, totalChunks := 1,
        status := .PROCESSING, finalHash := none, createdAt := 0,
        chunks := [.SUCCESS], blob := some [7] } :=
    Reachable.acquire h1
  have hF : Reachable 1 (fun b => b) (fun _ => true) uF :=
    Reachable.checks h2 rfl
  exact ⟨rfl, (c5_completed_integrity 1 (fun b => b) (fun _ => true) uF hF).2 rfl⟩

end ChunkedUpload
